import Mathlib

/-!
Shallow embedding of the Wenderer direct volume renderer core.

The Rust sources (rendering.rs, shading.rs, geometries.rs, utils.rs, data.rs,
main.rs) are translated into executable Lean definitions.  Machine floats are
modelled as rationals; GPU resources (textures, buffers, bind groups) are
modelled by records carrying the observable parameters the code chooses for
them (dimensions, sample count, format, contents).  The WGSL compositing
shader is not part of the sources, so the per-pixel march loop is modelled
from the specification text where needed.
-/

namespace Wenderer

/-- Texture formats the renderer uses (wgpu::TextureFormat). -/
inductive TextureFormat where
  | rgba16Float
  | rgba8UnormSrgb
  | r16Float
  | depth32Float
  | bgra8Unorm
  deriving DecidableEq, Repr

/-- Face selector for culling (wgpu::Face). -/
inductive Face where
  | front
  | back
  deriving DecidableEq, Repr

/-- Depth compare functions used by the pipelines (wgpu::CompareFunction). -/
inductive CompareFunction where
  | less
  | greater
  deriving DecidableEq, Repr

/-- A 3-vector of rationals, modelling cgmath::Vector3 of f32. -/
abbrev V3q := ℚ × ℚ × ℚ

/-- A 4x4 rational matrix, modelling cgmath::Matrix4 of f32.  Fields are
named column-major, crcc where the first index is the column, matching the
argument order of cgmath's Matrix4::new. -/
structure Mat4 where
  c0r0 : ℚ
  c0r1 : ℚ
  c0r2 : ℚ
  c0r3 : ℚ
  c1r0 : ℚ
  c1r1 : ℚ
  c1r2 : ℚ
  c1r3 : ℚ
  c2r0 : ℚ
  c2r1 : ℚ
  c2r2 : ℚ
  c2r3 : ℚ
  c3r0 : ℚ
  c3r1 : ℚ
  c3r2 : ℚ
  c3r3 : ℚ
  deriving DecidableEq, Repr

/-- The OPENGL_TO_WGPU_MATRIX constant from rendering.rs, columns
(1,0,0,0), (0,1,0,0), (0,0,1/2,0), (0,0,1/2,1): as a map it sends
(x, y, z, w) to (x, y, z/2 + w/2, w). -/
def openglToWgpuMatrix : Mat4 :=
  ⟨1, 0, 0, 0,
   0, 1, 0, 0,
   0, 0, 1/2, 0,
   0, 0, 1/2, 1⟩

/-- cgmath's Matrix4::from_nonuniform_scale. -/
def fromNonuniformScale (x y z : ℚ) : Mat4 :=
  ⟨x, 0, 0, 0,
   0, y, 0, 0,
   0, 0, z, 0,
   0, 0, 0, 1⟩

/-- Standard 4x4 matrix product, modelling cgmath's Mul for Matrix4. -/
def Mat4.mul (a b : Mat4) : Mat4 :=
  ⟨a.c0r0 * b.c0r0 + a.c1r0 * b.c0r1 + a.c2r0 * b.c0r2 + a.c3r0 * b.c0r3,
   a.c0r1 * b.c0r0 + a.c1r1 * b.c0r1 + a.c2r1 * b.c0r2 + a.c3r1 * b.c0r3,
   a.c0r2 * b.c0r0 + a.c1r2 * b.c0r1 + a.c2r2 * b.c0r2 + a.c3r2 * b.c0r3,
   a.c0r3 * b.c0r0 + a.c1r3 * b.c0r1 + a.c2r3 * b.c0r2 + a.c3r3 * b.c0r3,
   a.c0r0 * b.c1r0 + a.c1r0 * b.c1r1 + a.c2r0 * b.c1r2 + a.c3r0 * b.c1r3,
   a.c0r1 * b.c1r0 + a.c1r1 * b.c1r1 + a.c2r1 * b.c1r2 + a.c3r1 * b.c1r3,
   a.c0r2 * b.c1r0 + a.c1r2 * b.c1r1 + a.c2r2 * b.c1r2 + a.c3r2 * b.c1r3,
   a.c0r3 * b.c1r0 + a.c1r3 * b.c1r1 + a.c2r3 * b.c1r2 + a.c3r3 * b.c1r3,
   a.c0r0 * b.c2r0 + a.c1r0 * b.c2r1 + a.c2r0 * b.c2r2 + a.c3r0 * b.c2r3,
   a.c0r1 * b.c2r0 + a.c1r1 * b.c2r1 + a.c2r1 * b.c2r2 + a.c3r1 * b.c2r3,
   a.c0r2 * b.c2r0 + a.c1r2 * b.c2r1 + a.c2r2 * b.c2r2 + a.c3r2 * b.c2r3,
   a.c0r3 * b.c2r0 + a.c1r3 * b.c2r1 + a.c2r3 * b.c2r2 + a.c3r3 * b.c2r3,
   a.c0r0 * b.c3r0 + a.c1r0 * b.c3r1 + a.c2r0 * b.c3r2 + a.c3r0 * b.c3r3,
   a.c0r1 * b.c3r0 + a.c1r1 * b.c3r1 + a.c2r1 * b.c3r2 + a.c3r1 * b.c3r3,
   a.c0r2 * b.c3r0 + a.c1r2 * b.c3r1 + a.c2r2 * b.c3r2 + a.c3r2 * b.c3r3,
   a.c0r3 * b.c3r0 + a.c1r3 * b.c3r1 + a.c2r3 * b.c3r2 + a.c3r3 * b.c3r3⟩

/-- Apply a 4x4 matrix to a point (x, y, z, 1) and divide by the resulting w,
as Mesh2::new / Mesh3::new do in geometries.rs. -/
def transformPoint (m : Mat4) (v : V3q) : V3q :=
  let rx := m.c0r0 * v.1 + m.c1r0 * v.2.1 + m.c2r0 * v.2.2 + m.c3r0
  let ry := m.c0r1 * v.1 + m.c1r1 * v.2.1 + m.c2r1 * v.2.2 + m.c3r1
  let rz := m.c0r2 * v.1 + m.c1r2 * v.2.1 + m.c2r2 * v.2.2 + m.c3r2
  let rw := m.c0r3 * v.1 + m.c1r3 * v.2.1 + m.c2r3 * v.2.2 + m.c3r3
  (rx / rw, ry / rw, rz / rw)

/-- The Camera struct from rendering.rs. -/
structure Camera where
  eye : V3q
  center : V3q
  up : V3q
  aspect : ℚ
  fovy : ℚ
  znear : ℚ
  zfar : ℚ
  deriving DecidableEq

/-- Value held by the model-view-projection uniform.  The function
Camera::build_view_projection_matrix applies a perspective projection and a
look_at transform, which involve tangents and square roots that have no exact
rational representation; since it is a pure function of the camera and the
model transformation, we record those exact inputs instead of the matrix. -/
inductive MvpValue where
  | identityInit
  | ofInputs (camera : Camera) (modelTransformation : Mat4)

/-- The Uniforms struct from data.rs. -/
structure Uniforms where
  model_view_proj : MvpValue

/-- Uniforms::new from data.rs: the matrix starts as the identity. -/
def Uniforms.new : Uniforms := ⟨MvpValue.identityInit⟩

/-- Uniforms::update_model_view_proj from data.rs. -/
def Uniforms.update_model_view_proj (_ : Uniforms) (camera : Camera)
    (modelTransformation : Mat4) : Uniforms :=
  ⟨MvpValue.ofInputs camera modelTransformation⟩

/-- The CanvasShaderUniforms struct from data.rs. -/
structure CanvasShaderUniforms where
  step_size : ℚ
  base_distance : ℚ
  opacity_threshold : ℚ
  ambient_intensity : ℚ
  diffuse_intensity : ℚ
  specular_intensity : ℚ
  shininess : ℚ
  deriving DecidableEq, Repr

/-- Default for CanvasShaderUniforms from data.rs. -/
def CanvasShaderUniforms.default : CanvasShaderUniforms :=
  { step_size := 1/400
  , base_distance := 1/400
  , opacity_threshold := 19/20
  , ambient_intensity := 1/2
  , diffuse_intensity := 1/2
  , specular_intensity := 1/2
  , shininess := 32 }

/-- The observable allocation parameters of a Tex (shading.rs): the texture
extent, sample count and format chosen at creation time. -/
structure Tex where
  width : ℕ
  height : ℕ
  sample_count : ℕ
  format : TextureFormat
  deriving DecidableEq, Repr

/-- Tex::DEPTH_FORMAT from shading.rs. -/
def Tex.DEPTH_FORMAT : TextureFormat := TextureFormat.depth32Float

/-- Tex::create_depth_texture from shading.rs: a (width, height) texture with
the given sample count and the fixed depth format.  The NonZeroU32 sample
count argument is modelled as a natural number. -/
def Tex.create_depth_texture (width height : ℕ) (sample_cnt : ℕ) : Tex :=
  { width := width
  , height := height
  , sample_count := sample_cnt
  , format := Tex.DEPTH_FORMAT }

/-- Tex::create_render_buffer from shading.rs. -/
def Tex.create_render_buffer (dimensions : ℕ × ℕ) (sample_cnt : ℕ)
    (format : TextureFormat) : Tex :=
  { width := dimensions.1
  , height := dimensions.2
  , sample_count := sample_cnt
  , format := format }

/-- Tex::create_1d_texture_rgba8 from shading.rs: width is the number of RGBA
entries, height 1, sample count 1, format Rgba8UnormSrgb. -/
def Tex.create_1d_texture_rgba8 (data : List (ℕ × ℕ × ℕ × ℕ)) : Tex :=
  { width := data.length
  , height := 1
  , sample_count := 1
  , format := TextureFormat.rgba8UnormSrgb }

/-- Tex::create_3d_texture_red_f16 from shading.rs, keyed by its extent. -/
def Tex.create_3d_texture_red_f16 (size : ℕ × ℕ × ℕ) : Tex :=
  { width := size.1
  , height := size.2.1
  , sample_count := 1
  , format := TextureFormat.r16Float }

/-- The Vertex3 struct from data.rs: a position and a 3-component attribute. -/
structure Vertex3 where
  position : V3q
  attrib : V3q
  deriving DecidableEq

/-- The Mesh3 struct from geometries.rs. -/
structure Mesh3 where
  vertices : List Vertex3
  indices : List ℕ
  deriving DecidableEq

/-- Mesh3::new from geometries.rs: positions are transformed by
(transform * OPENGL_TO_WGPU_MATRIX) with homogeneous division, then zipped
with the untouched 3-component attributes. -/
def Mesh3.new (vertices : List V3q) (indices : List ℕ) (attribs3D : List V3q)
    (transformMatrix : Option Mat4) : Mesh3 :=
  let tm := match transformMatrix with
    | some t => Mat4.mul t openglToWgpuMatrix
    | none => openglToWgpuMatrix
  { vertices :=
      ((vertices.map (fun v => transformPoint tm v)).zip attribs3D).map
        (fun p => { position := p.1, attrib := p.2 })
  , indices := indices }

/-- Mesh3::get_num_indices via the Geometry trait in geometries.rs. -/
def Mesh3.get_num_indices (m : Mesh3) : ℕ := m.indices.length

/-- The eight cube corner positions passed to Mesh3::new by create_cube_fbo
(utils.rs), with side = 1 and side2 = 1/2. -/
def cubeFboPositions : List V3q :=
  [ (-(1/2), -(1/2), 1/2)
  , (1/2, -(1/2), 1/2)
  , (1/2, 1/2, 1/2)
  , (-(1/2), 1/2, 1/2)
  , (-(1/2), -(1/2), -(1/2))
  , (1/2, -(1/2), -(1/2))
  , (1/2, 1/2, -(1/2))
  , (-(1/2), 1/2, -(1/2)) ]

/-- The eight per-vertex 3-component attributes passed to Mesh3::new by
create_cube_fbo (utils.rs). -/
def cubeFboAttribs : List V3q :=
  [ (0, 0, 1)
  , (1, 0, 1)
  , (1, 1, 1)
  , (0, 1, 1)
  , (0, 0, 0)
  , (1, 0, 0)
  , (1, 1, 0)
  , (0, 1, 0) ]

/-- The 36 cube indices from create_cube_fbo (utils.rs). -/
def cubeFboIndices : List ℕ :=
  [ 0, 1, 3, 3, 1, 2
  , 2, 1, 5, 2, 5, 6
  , 3, 2, 7, 7, 2, 6
  , 4, 0, 3, 4, 3, 7
  , 4, 1, 0, 4, 5, 1
  , 7, 6, 5, 7, 5, 4 ]

/-- create_cube_fbo from utils.rs. -/
def create_cube_fbo : Mesh3 :=
  Mesh3.new cubeFboPositions cubeFboIndices cubeFboAttribs none

/-- The pipeline configuration D3Pass::new bakes into its render pipeline:
color target format, cull mode, depth compare function and sample count. -/
structure Pipeline3d where
  target_format : TextureFormat
  cull_mode : Face
  depth_compare : CompareFunction
  sample_count : ℕ
  deriving DecidableEq, Repr

/-- The D3Pass struct from rendering.rs. -/
structure D3Pass where
  depth_texture : Tex
  vertex_buffer : List Vertex3
  index_buffer : List ℕ
  uniforms : Uniforms
  uniform_buffer : Uniforms
  depth_clear_op : ℚ
  multisample_buffer : Option Tex
  clear_color : ℚ × ℚ × ℚ × ℚ
  num_depth_indices : ℕ
  render_pipeline : Pipeline3d
  cube : Mesh3
  sample_count : ℕ

/-- D3Pass::new from rendering.rs.  The multisample buffer exists only when
the sample count exceeds one; render_front_face selects cull mode, depth
compare and depth clear value; the depth texture matches the render size and
sample count; the uniform buffer is initialised from the camera and the cube
transformation. -/
def D3Pass.new (render_width render_height : ℕ) (target_format : TextureFormat)
    (render_front_face : Bool) (camera : Camera) (sample_cnt : ℕ)
    (cube_transformation : Mat4) : D3Pass :=
  let sample_count := sample_cnt
  let enable_multisample := 1 < sample_count
  let multisample_buffer :=
    if enable_multisample then
      some (Tex.create_render_buffer (render_width, render_height) sample_cnt
        target_format)
    else none
  let face_render_config : Face × CompareFunction × ℚ :=
    if render_front_face then (Face.back, CompareFunction.less, 1)
    else (Face.front, CompareFunction.greater, 0)
  let cube := create_cube_fbo
  let depth_texture :=
    Tex.create_depth_texture render_width render_height sample_cnt
  let uniforms :=
    Uniforms.new.update_model_view_proj camera cube_transformation
  { depth_texture := depth_texture
  , vertex_buffer := cube.vertices
  , index_buffer := cube.indices
  , uniforms := uniforms
  , uniform_buffer := uniforms
  , depth_clear_op := face_render_config.2.2
  , multisample_buffer := multisample_buffer
  , clear_color := (0, 0, 0, 1)
  , num_depth_indices := cube.get_num_indices
  , render_pipeline :=
      { target_format := target_format
      , cull_mode := face_render_config.1
      , depth_compare := face_render_config.2.1
      , sample_count := sample_count }
  , cube := cube
  , sample_count := sample_count }

/-- D3Pass::update_model_view_proj_uniform from rendering.rs: recomputes the
uniforms and writes them to the uniform buffer. -/
def D3Pass.update_model_view_proj_uniform (p : D3Pass)
    (model_transformation : Mat4) (camera : Camera) : D3Pass :=
  let u := p.uniforms.update_model_view_proj camera model_transformation
  { p with uniforms := u, uniform_buffer := u }

/-- D3Pass::resize from rendering.rs: recreates the depth texture at the new
size with the stored sample count, and recreates the multisample buffer (when
present) at the new size with the stored sample count and the old buffer's
format. -/
def D3Pass.resize (p : D3Pass) (render_width render_height : ℕ) : D3Pass :=
  let sample_cnt := p.sample_count
  { p with
    depth_texture :=
      Tex.create_depth_texture render_width render_height sample_cnt
  , multisample_buffer :=
      match p.multisample_buffer with
      | none => none
      | some old_buffer =>
          some (Tex.create_render_buffer (render_width, render_height)
            sample_cnt old_buffer.format) }

/-- The Vertex2 struct from data.rs: a position and a 2-component attribute. -/
structure Vertex2 where
  position : V3q
  attrib : ℚ × ℚ
  deriving DecidableEq

/-- The Mesh2 struct from geometries.rs. -/
structure Mesh2 where
  vertices : List Vertex2
  indices : List ℕ
  deriving DecidableEq

/-- Mesh2::new from geometries.rs, the 2-attribute analogue of Mesh3::new. -/
def Mesh2.new (vertices : List V3q) (indices : List ℕ)
    (attribs2D : List (ℚ × ℚ)) (transformMatrix : Option Mat4) : Mesh2 :=
  let tm := match transformMatrix with
    | some t => Mat4.mul t openglToWgpuMatrix
    | none => openglToWgpuMatrix
  { vertices :=
      ((vertices.map (fun v => transformPoint tm v)).zip attribs2D).map
        (fun p => { position := p.1, attrib := p.2 })
  , indices := indices }

/-- The full-screen rectangle constructor from geometries.rs (the only
Rectangle constructor present in this snapshot of the sources; rendering.rs
refers to it as new_standard_rectangle). -/
def Rectangle.new : Mesh2 :=
  Mesh2.new
    [(0, 0, 0), (1, 0, 0), (1, 1, 0), (0, 1, 0)]
    [0, 1, 2, 0, 2, 3]
    [(0, 1), (1, 1), (1, 0), (0, 0)]
    none

/-- Rust numeric cast from f32 to u8 (the `as u8` in
load_example_transfer_function): truncate toward zero, saturating to the
range 0..255. -/
def f32AsU8 (x : ℚ) : ℕ := Int.toNat (min 255 (Int.floor x))

/-- The twelve RGBA control points of the static TF table in
load_example_transfer_function (utils.rs), read four floats at a time. -/
def tfControlPoints : List (ℚ × ℚ × ℚ × ℚ) :=
  [ (0, 0, 0, 0)
  , (0, 1/2, 1/2, 1/100)
  , (0, 1/2, 1/2, 1/100)
  , (0, 1/2, 1/2, 0)
  , (1/2, 1/2, 0, 0)
  , (1/2, 1/2, 0, 1/5)
  , (1/2, 1/2, 0, 1/2)
  , (1/2, 1/2, 0, 1/5)
  , (1/2, 1/2, 0, 0)
  , (0, 0, 0, 0)
  , (1, 0, 1, 0)
  , (1, 0, 1, 4/5) ]

/-- load_example_transfer_function from utils.rs: every channel of every
control point is scaled by 255 and cast to u8. -/
def load_example_transfer_function : List (ℕ × ℕ × ℕ × ℕ) :=
  tfControlPoints.map (fun v =>
    (f32AsU8 (v.1 * 255), f32AsU8 (v.2.1 * 255),
     f32AsU8 (v.2.2.1 * 255), f32AsU8 (v.2.2.2 * 255)))

/-- The pipeline configuration CanvasPass::new bakes into its render
pipeline (it has no depth stage and always culls back faces). -/
structure PipelineCanvas where
  target_format : TextureFormat
  cull_mode : Face
  sample_count : ℕ
  deriving DecidableEq, Repr

/-- The CanvasPass struct from rendering.rs.  Bind groups are modelled by the
textures they bind; the uniform buffer by its current contents. -/
structure CanvasPass where
  face_texture_bind_group : Tex × Tex
  volume_bind_group : Tex
  tf_bind_group : Tex
  uniforms : CanvasShaderUniforms
  uniform_buffer : CanvasShaderUniforms
  vertex_buffer : List Vertex2
  index_buffer : List ℕ
  num_depth_indices : ℕ
  render_pipeline : PipelineCanvas
  canvas : Mesh2
  sample_count : ℕ
  multisample_buffer : Option Tex

/-- CanvasPass::new from rendering.rs. -/
def CanvasPass.new (front_face_render_buffer back_face_render_buffer : Tex)
    (volume_texture : Tex) (resolution : ℕ × ℕ) (tex_format : TextureFormat)
    (sample_cnt : ℕ) : CanvasPass :=
  let sample_count := sample_cnt
  let multisample_buffer :=
    if 1 < sample_count then
      some (Tex.create_render_buffer resolution sample_cnt tex_format)
    else none
  let canvas := Rectangle.new
  let transfer_function_values := load_example_transfer_function
  let transfer_function_texture :=
    Tex.create_1d_texture_rgba8 transfer_function_values
  { face_texture_bind_group :=
      (front_face_render_buffer, back_face_render_buffer)
  , volume_bind_group := volume_texture
  , tf_bind_group := transfer_function_texture
  , uniforms := CanvasShaderUniforms.default
  , uniform_buffer := CanvasShaderUniforms.default
  , vertex_buffer := canvas.vertices
  , index_buffer := canvas.indices
  , num_depth_indices := canvas.indices.length
  , render_pipeline :=
      { target_format := tex_format
      , cull_mode := Face.back
      , sample_count := sample_count }
  , canvas := canvas
  , sample_count := sample_count
  , multisample_buffer := multisample_buffer }

/-- CanvasPass::change_bound_face_textures from rendering.rs: rebuilds only
the face-texture bind group. -/
def CanvasPass.change_bound_face_textures (p : CanvasPass)
    (front_face_texture back_face_texture : Tex) : CanvasPass :=
  { p with face_texture_bind_group := (front_face_texture, back_face_texture) }

/-- CanvasPass::set_uniforms from rendering.rs. -/
def CanvasPass.set_uniforms (p : CanvasPass)
    (uniforms : CanvasShaderUniforms) : CanvasPass :=
  { p with uniforms := uniforms, uniform_buffer := uniforms }

/-- CanvasPass::resize from rendering.rs: recreates only the multisample
buffer, when one is present, at the new size with the stored sample count and
the old buffer's format. -/
def CanvasPass.resize (p : CanvasPass) (width height : ℕ) : CanvasPass :=
  { p with
    multisample_buffer :=
      match p.multisample_buffer with
      | none => none
      | some old_buffer =>
          some (Tex.create_render_buffer (width, height) p.sample_count
            old_buffer.format) }

/-- One render pass recorded into a command encoder, identified by the
pipeline configuration that draws it. -/
inductive RecordedPass where
  | d3 (cull : Face) (cmp : CompareFunction) (depthClear : ℚ)
  | canvas
  deriving DecidableEq, Repr

/-- D3Pass::render from rendering.rs, as the trace it appends to the command
encoder: one render pass with the pass's cull mode, depth compare and depth
clear value. -/
def D3Pass.render (p : D3Pass) (encoder : List RecordedPass) :
    List RecordedPass :=
  encoder ++
    [RecordedPass.d3 p.render_pipeline.cull_mode p.render_pipeline.depth_compare
      p.depth_clear_op]

/-- CanvasPass::render from rendering.rs, as the trace it appends to the
command encoder. -/
def CanvasPass.render (_ : CanvasPass) (encoder : List RecordedPass) :
    List RecordedPass :=
  encoder ++ [RecordedPass.canvas]

/-- The FACE_RENDER_BUFFER_SAMPLE_COUNT constant from main.rs. -/
def FACE_RENDER_BUFFER_SAMPLE_COUNT : ℕ := 1

/-- The mid_val computation in RenderState::new (main.rs): the vector of the
three volume dimensions is sorted ascending and element 1 is taken. -/
def mid_val (x y z : ℕ) : ℕ :=
  (List.insertionSort (fun a b => a ≤ b) [x, y, z]).getD 1 0

/-- The cube_scaling computation in RenderState::new (main.rs). -/
def cube_scaling_of (x y z : ℕ) : Mat4 :=
  let m : ℚ := (mid_val x y z : ℚ)
  fromNonuniformScale ((x : ℚ) / m) ((y : ℚ) / m) ((z : ℚ) / m)

/-- The median of three naturals, written directly from the word median. -/
def median3 (x y z : ℕ) : ℕ := max (min x y) (min (max x y) z)

/-- The RenderState struct from main.rs (the fields the claims are about). -/
structure RenderState where
  camera : Camera
  cube_scaling : Mat4
  front_face_pass : D3Pass
  front_face_render_buffer : Tex
  back_face_pass : D3Pass
  back_face_render_buffer : Tex
  canvas_pass : CanvasPass
  size : ℕ × ℕ
  surface_format : TextureFormat

/-- RenderState::new from main.rs: camera from the window size, cube scaling
from the volume dimensions, two face passes over Rgba16Float single-sample
render buffers, and the canvas pass over the surface format. -/
def RenderState.new (size : ℕ × ℕ) (preferred_format : TextureFormat)
    (volume_dims : ℕ × ℕ × ℕ) (sample_count : ℕ) : RenderState :=
  let camera : Camera :=
    { eye := (0, -(5/2), 1)
    , center := (0, 0, 0)
    , up := (0, 0, 1)
    , aspect := (size.1 : ℚ) / (size.2 : ℚ)
    , fovy := 45
    , znear := 1/10
    , zfar := 100 }
  let x := volume_dims.1
  let y := volume_dims.2.1
  let z := volume_dims.2.2
  let volume_texture := Tex.create_3d_texture_red_f16 (x, y, z)
  let cube_scaling := cube_scaling_of x y z
  let face_buffer_format := TextureFormat.rgba16Float
  let front_face_render_buffer :=
    Tex.create_render_buffer size FACE_RENDER_BUFFER_SAMPLE_COUNT
      face_buffer_format
  let front_face_pass :=
    D3Pass.new size.1 size.2 front_face_render_buffer.format true camera
      sample_count cube_scaling
  let back_face_render_buffer :=
    Tex.create_render_buffer size FACE_RENDER_BUFFER_SAMPLE_COUNT
      face_buffer_format
  let back_face_pass :=
    D3Pass.new size.1 size.2 back_face_render_buffer.format false camera
      sample_count cube_scaling
  let canvas_pass :=
    CanvasPass.new front_face_render_buffer back_face_render_buffer
      volume_texture size preferred_format sample_count
  { camera := camera
  , cube_scaling := cube_scaling
  , front_face_pass := front_face_pass
  , front_face_render_buffer := front_face_render_buffer
  , back_face_pass := back_face_pass
  , back_face_render_buffer := back_face_render_buffer
  , canvas_pass := canvas_pass
  , size := size
  , surface_format := preferred_format }

/-- App::resize from main.rs: updates size and camera aspect, resizes both
face passes and the canvas pass, refreshes both model-view-projection
uniforms from the unchanged cube scaling, recreates both face render buffers
at the new size with their old formats, and rebinds them on the canvas
pass. -/
def App.resize (rs : RenderState) (new_size : ℕ × ℕ) : RenderState :=
  let size := new_size
  let camera := { rs.camera with aspect := (size.1 : ℚ) / (size.2 : ℚ) }
  let front1 := rs.front_face_pass.resize size.1 size.2
  let back1 := rs.back_face_pass.resize size.1 size.2
  let front2 := front1.update_model_view_proj_uniform rs.cube_scaling camera
  let back2 := back1.update_model_view_proj_uniform rs.cube_scaling camera
  let canvas1 := rs.canvas_pass.resize size.1 size.2
  let front_face_render_buffer :=
    Tex.create_render_buffer size FACE_RENDER_BUFFER_SAMPLE_COUNT
      rs.front_face_render_buffer.format
  let back_face_render_buffer :=
    Tex.create_render_buffer size FACE_RENDER_BUFFER_SAMPLE_COUNT
      rs.back_face_render_buffer.format
  let canvas2 :=
    canvas1.change_bound_face_textures front_face_render_buffer
      back_face_render_buffer
  { rs with
    size := size
  , camera := camera
  , front_face_pass := front2
  , back_face_pass := back2
  , canvas_pass := canvas2
  , front_face_render_buffer := front_face_render_buffer
  , back_face_render_buffer := back_face_render_buffer }

/-- App::update from main.rs.  The camera controller step involves vector
normalization (square roots), so it is abstracted as a function argument; the
rest follows the code: both face passes get fresh model-view-projection
uniforms from the cube scaling and the updated camera. -/
def App.update (rs : RenderState) (update_camera : Camera → Camera) :
    RenderState :=
  let camera := update_camera rs.camera
  { rs with
    camera := camera
  , front_face_pass :=
      rs.front_face_pass.update_model_view_proj_uniform rs.cube_scaling camera
  , back_face_pass :=
      rs.back_face_pass.update_model_view_proj_uniform rs.cube_scaling camera }

/-- App::render from main.rs, as the list of submitted command buffers, each
a list of recorded render passes: one encoder records the front-face pass,
the back-face pass and the canvas pass, and is submitted once. -/
def App.render (rs : RenderState) : List (List RecordedPass) :=
  let encoder : List RecordedPass := []
  let encoder := rs.front_face_pass.render encoder
  let encoder := rs.back_face_pass.render encoder
  let encoder := rs.canvas_pass.render encoder
  [encoder]

/-- load_volume_data from utils.rs, modelled on the list of 16-bit values
obtained from the file bytes (the code decodes consecutive byte pairs with
u16::from_ne_bytes; chunks_exact drops a trailing odd byte).  Returns none
exactly where the Rust code panics: when fewer than three values are present
(the header unwraps fail) or when the assert_eq on the data length fails.
Each data element is (value shl 4) truncated to 16 bits, divided by 65535. -/
def load_volume_data (unsigned_shorts : List ℕ) :
    Option ((ℕ × ℕ × ℕ) × List ℚ × List ℕ) :=
  match unsigned_shorts with
  | x :: y :: z :: rest =>
      let expected_data_num := x * y * z
      let data : List ℚ :=
        rest.map (fun num => ((num * 16 % 65536 : ℕ) : ℚ) / 65535)
      if expected_data_num = data.length then some ((x, y, z), data, rest)
      else none
  | _ => none

/-- Modelled from the spec: the color and opacity the compositing shader
derives for one sample position (transfer-function lookup of the sampled
density, with any shading modulation already applied).  The WGSL compositing
shader canvas_shader.wgsl is not among the sources. -/
structure MarchSample where
  r : ℚ
  g : ℚ
  b : ℚ
  a : ℚ
  deriving DecidableEq, Repr

/-- Modelled from the spec: the per-pixel march state of section 4.2 —
distance traveled, accumulated color and accumulated alpha. -/
structure MarchState where
  traveled : ℚ
  r : ℚ
  g : ℚ
  b : ℚ
  alpha : ℚ
  deriving DecidableEq, Repr

/-- Modelled from the spec: initial march state of step 3 — traveled starts
at base_distance, accumulated color and alpha start at zero. -/
def initMarchState (base_distance : ℚ) : MarchState :=
  { traveled := base_distance, r := 0, g := 0, b := 0, alpha := 0 }

/-- Modelled from the spec: steps 4a-4f of the per-pixel algorithm — sample
at the traveled distance, composite front-to-back, advance by step_size. -/
def marchStep (sample : ℚ → MarchSample) (step_size : ℚ) (s : MarchState) :
    MarchState :=
  let smp := sample s.traveled
  { traveled := s.traveled + step_size
  , r := s.r + (1 - s.alpha) * smp.a * smp.r
  , g := s.g + (1 - s.alpha) * smp.a * smp.g
  , b := s.b + (1 - s.alpha) * smp.a * smp.b
  , alpha := s.alpha + (1 - s.alpha) * smp.a }

/-- Modelled from the spec: the march loop run without early termination —
the loop condition keeps only traveled < ray_length.  The first argument of
the recursion is fuel bounding the iteration count; both loop variants below
are compared at the same fuel. -/
def marchNoCap (sample : ℚ → MarchSample) (step_size ray_length : ℚ) :
    ℕ → MarchState → MarchState
  | 0, s => s
  | Nat.succ n, s =>
      if s.traveled < ray_length then
        marchNoCap sample step_size ray_length n (marchStep sample step_size s)
      else s

/-- Modelled from the spec: the march loop with early ray termination,
allowing at most cap further compositing steps once accumulated alpha has
reached opacity_threshold; cap = 0 is exactly the loop of step 4, whose
condition is traveled < ray_length and accumulated_alpha <
opacity_threshold. -/
def marchCapped (sample : ℚ → MarchSample)
    (step_size ray_length opacity_threshold : ℚ) :
    ℕ → ℕ → MarchState → MarchState
  | 0, _, s => s
  | Nat.succ n, cap, s =>
      if s.traveled < ray_length then
        if s.alpha < opacity_threshold then
          marchCapped sample step_size ray_length opacity_threshold n cap
            (marchStep sample step_size s)
        else
          match cap with
          | 0 => s
          | Nat.succ k =>
              marchCapped sample step_size ray_length opacity_threshold n k
                (marchStep sample step_size s)
      else s

/-- Modelled from the spec: steps 4a-4c — the sample position is entry plus
ray_dir times traveled, the density is looked up in the volume there, and the
transfer function classifies the density. -/
def sampleOnRay (entry ray_dir : V3q) (volume : V3q → ℚ)
    (tf : ℚ → MarchSample) (t : ℚ) : MarchSample :=
  tf (volume (entry.1 + ray_dir.1 * t, entry.2.1 + ray_dir.2.1 * t,
    entry.2.2 + ray_dir.2.2 * t))

/-- All four channels produced by the sample classification lie in the unit
interval; this is the spec's premise that transfer-function colors and
opacities are RGBA values in the unit interval. -/
def SampleInUnit (sample : ℚ → MarchSample) : Prop :=
  ∀ t, 0 ≤ (sample t).r ∧ (sample t).r ≤ 1 ∧
    0 ≤ (sample t).g ∧ (sample t).g ≤ 1 ∧
    0 ≤ (sample t).b ∧ (sample t).b ≤ 1 ∧
    0 ≤ (sample t).a ∧ (sample t).a ≤ 1

/-- A transfer function used for concrete evaluation: every density is
classified as a half-intensity gray with opacity 3/5. -/
def constTransfer : ℚ → MarchSample :=
  fun _ => { r := 1/2, g := 1/2, b := 1/2, a := 3/5 }

/-- A concrete per-pixel sampling: ray entering at the origin along the x
axis through a homogeneous volume of density 1/2, classified by
constTransfer. -/
def constRaySample : ℚ → MarchSample :=
  sampleOnRay (0, 0, 0) (1, 0, 0) (fun _ => 1/2) constTransfer

/-- A concrete single-sample color texture used to instantiate passes. -/
def unitTex : Tex :=
  Tex.create_render_buffer (4, 4) 1 TextureFormat.rgba16Float

/-- A concrete camera used to instantiate passes. -/
def unitCamera : Camera :=
  { eye := (0, -(5/2), 1)
  , center := (0, 0, 0)
  , up := (0, 0, 1)
  , aspect := 1
  , fovy := 45
  , znear := 1/10
  , zfar := 100 }

/-! Theorems.  Each claim of the specification is settled by one theorem
below; helper lemmas carry the inductive arguments. -/

/-- C1: a D3Pass constructed with render_front_face = true (entry pass) culls
back faces, compares depth with less and clears depth to 1; constructed with
render_front_face = false (exit pass) it culls front faces, compares depth
with greater and clears depth to 0. -/
theorem c1_face_pass_configuration (rw rh : ℕ) (fmt : TextureFormat)
    (b : Bool) (cam : Camera) (s : ℕ) (m : Mat4) :
    (D3Pass.new rw rh fmt b cam s m).render_pipeline.cull_mode
        = (if b then Face.back else Face.front) ∧
    (D3Pass.new rw rh fmt b cam s m).render_pipeline.depth_compare
        = (if b then CompareFunction.less else CompareFunction.greater) ∧
    (D3Pass.new rw rh fmt b cam s m).depth_clear_op = (if b then 1 else 0) := by
  cases b <;> simp [D3Pass.new]

/-- C3: after resize(w, h) the D3Pass depth texture has dimensions exactly
(w, h) with the construction sample count and the fixed depth format, its
multisample buffer (present exactly when the construction sample count
exceeds one) has dimensions exactly (w, h) with the construction sample
count and format, and after resize(w, h) the CanvasPass multisample buffer
(when present) likewise has dimensions exactly (w, h). -/
theorem c3_resize_dimensions (w h rw rh : ℕ) (fmt : TextureFormat) (b : Bool)
    (cam : Camera) (s : ℕ) (m : Mat4) (ftex btex vtex : Tex) (res : ℕ × ℕ)
    (cfmt : TextureFormat) :
    ((D3Pass.new rw rh fmt b cam s m).resize w h).depth_texture.width = w ∧
    ((D3Pass.new rw rh fmt b cam s m).resize w h).depth_texture.height = h ∧
    ((D3Pass.new rw rh fmt b cam s m).resize w h).depth_texture.sample_count = s ∧
    ((D3Pass.new rw rh fmt b cam s m).resize w h).depth_texture.format
        = Tex.DEPTH_FORMAT ∧
    ((D3Pass.new rw rh fmt b cam s m).resize w h).multisample_buffer
        = (if 1 < s then some (Tex.create_render_buffer (w, h) s fmt) else none) ∧
    ((CanvasPass.new ftex btex vtex res cfmt s).resize w h).multisample_buffer
        = (if 1 < s then some (Tex.create_render_buffer (w, h) s cfmt) else none) := by
  by_cases hs : 1 < s <;>
    simp [D3Pass.new, D3Pass.resize, CanvasPass.new, CanvasPass.resize,
      Tex.create_depth_texture, Tex.create_render_buffer, hs]

/-- C4: a frame renders by recording, into one encoder, the entry pass, then
the exit pass, then the composite pass, and submits exactly one command
buffer: for every render state the submission list is one buffer holding the
front-face pass record, the back-face pass record and the canvas pass record
in that order, and for a freshly constructed state those records carry the
entry configuration (cull back, less, clear 1) and the exit configuration
(cull front, greater, clear 0). -/
theorem c4_frame_pass_order (rs : RenderState) (size : ℕ × ℕ)
    (fmt : TextureFormat) (dims : ℕ × ℕ × ℕ) (s : ℕ) :
    App.render rs =
      [[RecordedPass.d3 rs.front_face_pass.render_pipeline.cull_mode
          rs.front_face_pass.render_pipeline.depth_compare
          rs.front_face_pass.depth_clear_op,
        RecordedPass.d3 rs.back_face_pass.render_pipeline.cull_mode
          rs.back_face_pass.render_pipeline.depth_compare
          rs.back_face_pass.depth_clear_op,
        RecordedPass.canvas]] ∧
    App.render (RenderState.new size fmt dims s) =
      [[RecordedPass.d3 Face.back CompareFunction.less 1,
        RecordedPass.d3 Face.front CompareFunction.greater 0,
        RecordedPass.canvas]] := by
  constructor
  · simp [App.render, D3Pass.render, CanvasPass.render]
  · simp [App.render, RenderState.new, D3Pass.render, CanvasPass.render,
      D3Pass.new]

/-- C5: for both pass types, the multisample buffer exists at construction
exactly when the sample count exceeds one, and resize maps it through
Option.map — none stays none and some stays some, keeping the old buffer's
format and the pass's stored sample count (which itself never changes and at
construction equals the buffer's). -/
theorem c5_multisample_invariant (rw rh : ℕ) (fmt : TextureFormat) (b : Bool)
    (cam : Camera) (s : ℕ) (m : Mat4) (ftex btex vtex : Tex) (res : ℕ × ℕ)
    (cfmt : TextureFormat) (p : D3Pass) (cp : CanvasPass) (w h : ℕ) :
    ((D3Pass.new rw rh fmt b cam s m).multisample_buffer
        = if 1 < s then some (Tex.create_render_buffer (rw, rh) s fmt) else none) ∧
    ((CanvasPass.new ftex btex vtex res cfmt s).multisample_buffer
        = if 1 < s then some (Tex.create_render_buffer res s cfmt) else none) ∧
    ((p.resize w h).multisample_buffer
        = p.multisample_buffer.map
            (fun old => Tex.create_render_buffer (w, h) p.sample_count old.format)) ∧
    ((cp.resize w h).multisample_buffer
        = cp.multisample_buffer.map
            (fun old => Tex.create_render_buffer (w, h) cp.sample_count old.format)) ∧
    ((p.resize w h).sample_count = p.sample_count) ∧
    ((cp.resize w h).sample_count = cp.sample_count) ∧
    ((D3Pass.new rw rh fmt b cam s m).sample_count = s) ∧
    ((CanvasPass.new ftex btex vtex res cfmt s).sample_count = s) := by
  refine ⟨?_, ?_, ?_, ?_, rfl, rfl, rfl, rfl⟩
  · by_cases hs : 1 < s <;> simp [D3Pass.new, hs]
  · by_cases hs : 1 < s <;> simp [CanvasPass.new, hs]
  · cases hmb : p.multisample_buffer <;> simp [D3Pass.resize, hmb]
  · cases hmb : cp.multisample_buffer <;> simp [CanvasPass.resize, hmb]

/-- C6: CanvasPass resize reallocates only the multisample buffer — every
other field (face-texture bind group, volume bind group, transfer-function
bind group, uniforms, uniform buffer, vertex and index buffers, index count,
pipeline, canvas mesh, sample count) is unchanged, and when there is no
multisample buffer the whole pass is unchanged. -/
theorem c6_canvas_resize_touches_only_msb (p : CanvasPass) (w h : ℕ) :
    (p.resize w h).face_texture_bind_group = p.face_texture_bind_group ∧
    (p.resize w h).volume_bind_group = p.volume_bind_group ∧
    (p.resize w h).tf_bind_group = p.tf_bind_group ∧
    (p.resize w h).uniforms = p.uniforms ∧
    (p.resize w h).uniform_buffer = p.uniform_buffer ∧
    (p.resize w h).vertex_buffer = p.vertex_buffer ∧
    (p.resize w h).index_buffer = p.index_buffer ∧
    (p.resize w h).num_depth_indices = p.num_depth_indices ∧
    (p.resize w h).render_pipeline = p.render_pipeline ∧
    (p.resize w h).canvas = p.canvas ∧
    (p.resize w h).sample_count = p.sample_count ∧
    (p.multisample_buffer = none → p.resize w h = p) := by
  obtain ⟨ftg, vg, tfg, u, ub, vb, ib, ndi, rp, cv, sc, msb⟩ := p
  cases msb <;> simp [CanvasPass.resize]

/-- C6 witness: a concretely constructed single-sample canvas pass has no
multisample buffer and is left entirely unchanged by resize. -/
theorem c6_witness :
    (CanvasPass.new unitTex unitTex unitTex (4, 4) TextureFormat.bgra8Unorm
        1).multisample_buffer = none ∧
    (CanvasPass.new unitTex unitTex unitTex (4, 4) TextureFormat.bgra8Unorm
        1).resize 2 3
      = CanvasPass.new unitTex unitTex unitTex (4, 4) TextureFormat.bgra8Unorm
          1 := by
  have hnone :
      (CanvasPass.new unitTex unitTex unitTex (4, 4) TextureFormat.bgra8Unorm
        1).multisample_buffer = none := by
    simp [CanvasPass.new]
  exact ⟨hnone,
    (c6_canvas_resize_touches_only_msb
      (CanvasPass.new unitTex unitTex unitTex (4, 4) TextureFormat.bgra8Unorm 1)
      2 3).2.2.2.2.2.2.2.2.2.2.2 hnone⟩

/-- Sorting the three dimensions and taking element 1, as RenderState::new
does, computes the median of the three. -/
theorem mid_val_eq_median3 (x y z : ℕ) : mid_val x y z = median3 x y z := by
  unfold mid_val median3
  by_cases hxy : x ≤ y <;> by_cases hyz : y ≤ z <;> by_cases hxz : x ≤ z <;>
    simp [List.insertionSort, List.orderedInsert, hxy, hyz, hxz, max_def,
      min_def] <;>
    first
      | omega
      | (split_ifs <;> omega)

/-- C10: the cube scaling is the non-uniform scale matrix with diagonal
(x/m, y/m, z/m) where m is the median of the three volume dimensions; a
fresh render state stores exactly that matrix, App::resize and App::update
leave it unchanged, and both refresh the two face passes' model-view-
projection uniforms from the updated camera and that same unchanged
matrix. -/
theorem c10_cube_scaling_constant (x y z : ℕ) (size : ℕ × ℕ)
    (fmt : TextureFormat) (dims : ℕ × ℕ × ℕ) (sc : ℕ) (rs : RenderState)
    (new_size : ℕ × ℕ) (f : Camera → Camera) :
    cube_scaling_of x y z
        = fromNonuniformScale ((x : ℚ) / (median3 x y z : ℚ))
            ((y : ℚ) / (median3 x y z : ℚ)) ((z : ℚ) / (median3 x y z : ℚ)) ∧
    (RenderState.new size fmt dims sc).cube_scaling
        = cube_scaling_of dims.1 dims.2.1 dims.2.2 ∧
    (App.resize rs new_size).cube_scaling = rs.cube_scaling ∧
    (App.update rs f).cube_scaling = rs.cube_scaling ∧
    (App.update rs f).front_face_pass.uniforms.model_view_proj
        = MvpValue.ofInputs ((App.update rs f).camera) rs.cube_scaling ∧
    (App.update rs f).back_face_pass.uniforms.model_view_proj
        = MvpValue.ofInputs ((App.update rs f).camera) rs.cube_scaling ∧
    (App.resize rs new_size).front_face_pass.uniforms.model_view_proj
        = MvpValue.ofInputs ((App.resize rs new_size).camera) rs.cube_scaling ∧
    (App.resize rs new_size).back_face_pass.uniforms.model_view_proj
        = MvpValue.ofInputs ((App.resize rs new_size).camera) rs.cube_scaling := by
  refine ⟨?_, rfl, rfl, rfl, rfl, rfl, rfl, rfl⟩
  unfold cube_scaling_of
  rw [mid_val_eq_median3]

/-- C7: when the input's first three 16-bit values are the dimensions
x, y, z, loading fails (the Rust assert panics) exactly when the number of
following 16-bit samples differs from x*y*z, and on success the returned
density sequence has length exactly x*y*z with every element in the unit
interval. -/
theorem c7_load_volume_data (x y z : ℕ) (rest : List ℕ) :
    (load_volume_data (x :: y :: z :: rest) = none
        ↔ rest.length ≠ x * y * z) ∧
    (∀ dims data raw,
      load_volume_data (x :: y :: z :: rest) = some (dims, data, raw) →
        dims = (x, y, z) ∧ data.length = x * y * z ∧
          ∀ q ∈ data, 0 ≤ q ∧ q ≤ 1) := by
  constructor
  · by_cases heq : x * y * z = rest.length <;>
      (simp [load_volume_data, heq]; try omega)
  · intro dims data raw hsome
    by_cases heq : x * y * z = rest.length
    · rw [show load_volume_data (x :: y :: z :: rest)
            = some ((x, y, z),
                rest.map (fun num => ((num * 16 % 65536 : ℕ) : ℚ) / 65535),
                rest) by simp [load_volume_data, heq]] at hsome
      injection hsome with h
      injection h with hdims h
      injection h with hdata hraw
      subst hdims
      subst hdata
      refine ⟨rfl, ?_, ?_⟩
      · rw [List.length_map]
        omega
      · intro q hq
        obtain ⟨num, _, hnum⟩ := List.mem_map.mp hq
        subst hnum
        constructor
        · positivity
        · rw [div_le_one (by norm_num)]
          have hlt : num * 16 % 65536 < 65536 :=
            Nat.mod_lt _ (by norm_num)
          exact_mod_cast Nat.le_of_lt_succ hlt
    · simp [load_volume_data, heq] at hsome

/-- C7 witness: a concrete nine-value input with dimension header (1, 2, 3)
and six samples loads successfully, and the theorem's conclusions hold
there. -/
theorem c7_witness :
    (load_volume_data [1, 2, 3, 0, 1, 2, 3, 4, 65535]).isSome = true ∧
    ((load_volume_data (1 :: 2 :: 3 :: [0, 1, 2, 3, 4, 65535]) = none
        ↔ ([0, 1, 2, 3, 4, 65535] : List ℕ).length ≠ 1 * 2 * 3) ∧
     (∀ dims data raw,
        load_volume_data (1 :: 2 :: 3 :: [0, 1, 2, 3, 4, 65535])
            = some (dims, data, raw) →
          dims = (1, 2, 3) ∧ data.length = 1 * 2 * 3 ∧
            ∀ q ∈ data, 0 ≤ q ∧ q ≤ 1)) :=
  ⟨by decide, c7_load_volume_data 1 2 3 [0, 1, 2, 3, 4, 65535]⟩

unseal Rat.add Rat.mul Rat.inv Rat.sub in
/-- C8: every control point of the example transfer function has all four
channels in the unit interval, and the corresponding 8-bit entry of the
built LUT reproduces each channel within 1/255 — the quantization v to
trunc(v*255) introduces error at most 1/255 per channel. -/
theorem c8_transfer_function_roundtrip :
    List.Forall₂ (fun (p : ℚ × ℚ × ℚ × ℚ) (e : ℕ × ℕ × ℕ × ℕ) =>
        (0 ≤ p.1 ∧ p.1 ≤ 1 ∧
          -(1/255) ≤ p.1 - (e.1 : ℚ) / 255 ∧ p.1 - (e.1 : ℚ) / 255 ≤ 1/255) ∧
        (0 ≤ p.2.1 ∧ p.2.1 ≤ 1 ∧
          -(1/255) ≤ p.2.1 - (e.2.1 : ℚ) / 255 ∧
          p.2.1 - (e.2.1 : ℚ) / 255 ≤ 1/255) ∧
        (0 ≤ p.2.2.1 ∧ p.2.2.1 ≤ 1 ∧
          -(1/255) ≤ p.2.2.1 - (e.2.2.1 : ℚ) / 255 ∧
          p.2.2.1 - (e.2.2.1 : ℚ) / 255 ≤ 1/255) ∧
        (0 ≤ p.2.2.2 ∧ p.2.2.2 ≤ 1 ∧
          -(1/255) ≤ p.2.2.2 - (e.2.2.2 : ℚ) / 255 ∧
          p.2.2.2 - (e.2.2.2 : ℚ) / 255 ≤ 1/255))
      tfControlPoints load_example_transfer_function := by
  decide

unseal Rat.add Rat.mul Rat.inv Rat.sub in
/-- C9 counterexample: the cube mesh supplied by create_cube_fbo does not
satisfy the claim — its vertex count and index count are as claimed, but
already the first vertex carries attribute (0, 0, 1) while its local-space
position is (-1/2, -1/2, 1/2), so the attribute does not equal the
position. -/
theorem c9_counterexample :
    ¬ (create_cube_fbo.vertices.length = 8 ∧
       create_cube_fbo.get_num_indices = 36 ∧
       List.Forall₂ (fun (vx : Vertex3) (p : V3q) => vx.attrib = p)
         create_cube_fbo.vertices cubeFboPositions) := by
  decide

unseal Rat.add Rat.mul Rat.inv Rat.sub in
/-- C9 amended: the cube mesh has 8 vertices and 36 indices (12 triangles),
and every vertex's stored 3-component attribute equals that vertex's
local-space position translated by (1/2, 1/2, 1/2) — the position expressed
in unit-cube volume coordinates. -/
theorem c9_cube_mesh_amended :
    create_cube_fbo.vertices.length = 8 ∧
    create_cube_fbo.get_num_indices = 36 ∧
    List.Forall₂ (fun (vx : Vertex3) (p : V3q) =>
        vx.attrib = (p.1 + 1/2, p.2.1 + 1/2, p.2.2 + 1/2))
      create_cube_fbo.vertices cubeFboPositions := by
  decide

/-- One compositing step keeps accumulated alpha monotone and at most one,
and increases each accumulated color channel by a nonnegative amount bounded
by the alpha increase, whenever the sample channels lie in the unit
interval. -/
theorem marchStep_bounds (sample : ℚ → MarchSample) (step_size : ℚ)
    (s : MarchState) (hs : SampleInUnit sample)
    (_h0 : 0 ≤ s.alpha) (h1 : s.alpha ≤ 1) :
    s.alpha ≤ (marchStep sample step_size s).alpha ∧
    (marchStep sample step_size s).alpha ≤ 1 ∧
    0 ≤ (marchStep sample step_size s).r - s.r ∧
    (marchStep sample step_size s).r - s.r
        ≤ (marchStep sample step_size s).alpha - s.alpha ∧
    0 ≤ (marchStep sample step_size s).g - s.g ∧
    (marchStep sample step_size s).g - s.g
        ≤ (marchStep sample step_size s).alpha - s.alpha ∧
    0 ≤ (marchStep sample step_size s).b - s.b ∧
    (marchStep sample step_size s).b - s.b
        ≤ (marchStep sample step_size s).alpha - s.alpha := by
  obtain ⟨hr0, hr1, hg0, hg1, hb0, hb1, ha0, ha1⟩ := hs s.traveled
  have hna : 0 ≤ (1 - s.alpha) * (sample s.traveled).a :=
    mul_nonneg (by linarith) ha0
  simp only [marchStep]
  refine ⟨by linarith, ?_, ?_, ?_, ?_, ?_, ?_, ?_⟩
  · nlinarith [mul_nonneg (sub_nonneg.mpr h1) (sub_nonneg.mpr ha1)]
  · nlinarith [mul_nonneg hna hr0]
  · nlinarith [mul_nonneg hna (sub_nonneg.mpr hr1)]
  · nlinarith [mul_nonneg hna hg0]
  · nlinarith [mul_nonneg hna (sub_nonneg.mpr hg1)]
  · nlinarith [mul_nonneg hna hb0]
  · nlinarith [mul_nonneg hna (sub_nonneg.mpr hb1)]

/-- Along the uncapped march, accumulated alpha is monotone and at most one,
and each color channel grows by at most the alpha growth. -/
theorem marchNoCap_drift (sample : ℚ → MarchSample)
    (step_size ray_length : ℚ) (hs : SampleInUnit sample) :
    ∀ (n : ℕ) (s : MarchState), 0 ≤ s.alpha → s.alpha ≤ 1 →
      s.alpha ≤ (marchNoCap sample step_size ray_length n s).alpha ∧
      (marchNoCap sample step_size ray_length n s).alpha ≤ 1 ∧
      0 ≤ (marchNoCap sample step_size ray_length n s).r - s.r ∧
      (marchNoCap sample step_size ray_length n s).r - s.r
          ≤ (marchNoCap sample step_size ray_length n s).alpha - s.alpha ∧
      0 ≤ (marchNoCap sample step_size ray_length n s).g - s.g ∧
      (marchNoCap sample step_size ray_length n s).g - s.g
          ≤ (marchNoCap sample step_size ray_length n s).alpha - s.alpha ∧
      0 ≤ (marchNoCap sample step_size ray_length n s).b - s.b ∧
      (marchNoCap sample step_size ray_length n s).b - s.b
          ≤ (marchNoCap sample step_size ray_length n s).alpha - s.alpha := by
  intro n
  induction n with
  | zero =>
      intro s h0 h1
      simp [marchNoCap, h1]
  | succ n ih =>
      intro s h0 h1
      simp only [marchNoCap]
      by_cases htrav : s.traveled < ray_length
      · simp only [if_pos htrav]
        obtain ⟨p1, p2, p3, p4, p5, p6, p7, p8⟩ :=
          marchStep_bounds sample step_size s hs h0 h1
        obtain ⟨q1, q2, q3, q4, q5, q6, q7, q8⟩ :=
          ih (marchStep sample step_size s) (by linarith) p2
        exact ⟨by linarith, q2, by linarith, by linarith, by linarith,
          by linarith, by linarith, by linarith⟩
      · simp [if_neg htrav, h1]

/-- The capped march never overtakes the uncapped march: its alpha stays at
or below the uncapped alpha, the uncapped alpha stays at most one, the capped
run either reached the opacity threshold or coincides with the uncapped run,
and every color channel of the uncapped run exceeds the capped one by a
nonnegative amount bounded by the alpha gap. -/
theorem marchCapped_vs_noCap (sample : ℚ → MarchSample)
    (step_size ray_length thr : ℚ) (hs : SampleInUnit sample) :
    ∀ (n K : ℕ) (s : MarchState), 0 ≤ s.alpha → s.alpha ≤ 1 →
      (marchCapped sample step_size ray_length thr n K s).alpha
          ≤ (marchNoCap sample step_size ray_length n s).alpha ∧
      (marchNoCap sample step_size ray_length n s).alpha ≤ 1 ∧
      (thr ≤ (marchCapped sample step_size ray_length thr n K s).alpha ∨
        marchCapped sample step_size ray_length thr n K s
          = marchNoCap sample step_size ray_length n s) ∧
      0 ≤ (marchNoCap sample step_size ray_length n s).r
          - (marchCapped sample step_size ray_length thr n K s).r ∧
      (marchNoCap sample step_size ray_length n s).r
          - (marchCapped sample step_size ray_length thr n K s).r
        ≤ (marchNoCap sample step_size ray_length n s).alpha
          - (marchCapped sample step_size ray_length thr n K s).alpha ∧
      0 ≤ (marchNoCap sample step_size ray_length n s).g
          - (marchCapped sample step_size ray_length thr n K s).g ∧
      (marchNoCap sample step_size ray_length n s).g
          - (marchCapped sample step_size ray_length thr n K s).g
        ≤ (marchNoCap sample step_size ray_length n s).alpha
          - (marchCapped sample step_size ray_length thr n K s).alpha ∧
      0 ≤ (marchNoCap sample step_size ray_length n s).b
          - (marchCapped sample step_size ray_length thr n K s).b ∧
      (marchNoCap sample step_size ray_length n s).b
          - (marchCapped sample step_size ray_length thr n K s).b
        ≤ (marchNoCap sample step_size ray_length n s).alpha
          - (marchCapped sample step_size ray_length thr n K s).alpha := by
  intro n
  induction n with
  | zero =>
      intro K s h0 h1
      simp [marchNoCap, marchCapped, h1]
  | succ n ih =>
      intro K s h0 h1
      simp only [marchNoCap, marchCapped]
      by_cases htrav : s.traveled < ray_length
      · simp only [if_pos htrav]
        by_cases hsat : s.alpha < thr
        · simp only [if_pos hsat]
          obtain ⟨p1, p2, _, _, _, _, _, _⟩ :=
            marchStep_bounds sample step_size s hs h0 h1
          exact ih K (marchStep sample step_size s) (by linarith) p2
        · simp only [if_neg hsat]
          cases K with
          | zero =>
              obtain ⟨p1, p2, p3, p4, p5, p6, p7, p8⟩ :=
                marchStep_bounds sample step_size s hs h0 h1
              obtain ⟨q1, q2, q3, q4, q5, q6, q7, q8⟩ :=
                marchNoCap_drift sample step_size ray_length hs n
                  (marchStep sample step_size s) (by linarith) p2
              exact ⟨by linarith, q2, Or.inl (le_of_not_lt hsat), by linarith,
                by linarith, by linarith, by linarith, by linarith, by linarith⟩
          | succ k =>
              obtain ⟨p1, p2, _, _, _, _, _, _⟩ :=
                marchStep_bounds sample step_size s hs h0 h1
              exact ih k (marchStep sample step_size s) (by linarith) p2
      · simp [if_neg htrav, h1]

unseal Rat.add Rat.mul Rat.inv Rat.sub in
/-- C2 counterexample: with a homogeneous volume of density 1/2 classified as
half-gray with opacity 3/5, step size 1, ray length 2, opacity threshold 1/2
and K = 0 extra steps, the capped march (accumulated alpha 3/5) and the
uncapped march (accumulated alpha 21/25) differ by 6/25 in alpha — far
beyond floating tolerance — so capping after saturation does not produce
output identical to running with no cap. -/
theorem c2_counterexample :
    (marchNoCap constRaySample 1 2 5 (initMarchState (1/4))).alpha
        - (marchCapped constRaySample 1 2 (1/2) 5 0
            (initMarchState (1/4))).alpha
      = 6/25 ∧
    marchCapped constRaySample 1 2 (1/2) 5 0 (initMarchState (1/4))
      ≠ marchNoCap constRaySample 1 2 5 (initMarchState (1/4)) := by
  decide

/-- C2 amended: with transfer-function outputs in the unit interval, an
opacity threshold at most one and an initial accumulated alpha in the unit
interval, running the march loop with a hard cap of K extra compositing
steps after accumulated alpha reaches the threshold produces output within
1 - opacity_threshold of running with no cap, in every color channel and in
alpha, with the uncapped result never below the capped one; exact identity
does not hold in general (see the counterexample). -/
theorem c2_early_termination_bound (sample : ℚ → MarchSample)
    (step_size ray_length thr : ℚ) (fuel K : ℕ) (s : MarchState)
    (hs : SampleInUnit sample) (hthr : thr ≤ 1)
    (h0 : 0 ≤ s.alpha) (h1 : s.alpha ≤ 1) :
    (0 ≤ (marchNoCap sample step_size ray_length fuel s).alpha
        - (marchCapped sample step_size ray_length thr fuel K s).alpha ∧
     (marchNoCap sample step_size ray_length fuel s).alpha
        - (marchCapped sample step_size ray_length thr fuel K s).alpha
       ≤ 1 - thr) ∧
    (0 ≤ (marchNoCap sample step_size ray_length fuel s).r
        - (marchCapped sample step_size ray_length thr fuel K s).r ∧
     (marchNoCap sample step_size ray_length fuel s).r
        - (marchCapped sample step_size ray_length thr fuel K s).r
       ≤ 1 - thr) ∧
    (0 ≤ (marchNoCap sample step_size ray_length fuel s).g
        - (marchCapped sample step_size ray_length thr fuel K s).g ∧
     (marchNoCap sample step_size ray_length fuel s).g
        - (marchCapped sample step_size ray_length thr fuel K s).g
       ≤ 1 - thr) ∧
    (0 ≤ (marchNoCap sample step_size ray_length fuel s).b
        - (marchCapped sample step_size ray_length thr fuel K s).b ∧
     (marchNoCap sample step_size ray_length fuel s).b
        - (marchCapped sample step_size ray_length thr fuel K s).b
       ≤ 1 - thr) := by
  obtain ⟨m1, m2, m3, m4, m5, m6, m7, m8, m9⟩ :=
    marchCapped_vs_noCap sample step_size ray_length thr hs fuel K s h0 h1
  have halpha :
      (marchNoCap sample step_size ray_length fuel s).alpha
          - (marchCapped sample step_size ray_length thr fuel K s).alpha
        ≤ 1 - thr := by
    rcases m3 with h | h
    · linarith
    · rw [h]
      linarith
  exact ⟨⟨by linarith, halpha⟩, ⟨m4, by linarith⟩, ⟨m6, by linarith⟩,
    ⟨m8, by linarith⟩⟩

/-- C2 amended witness: the bound holds concretely for the homogeneous
sample, threshold 1/2, fuel 5 and K = 0, with all hypotheses discharged. -/
theorem c2_early_termination_bound_witness :
    SampleInUnit constRaySample ∧ (1/2 : ℚ) ≤ 1 ∧
    0 ≤ (initMarchState (1/4)).alpha ∧ (initMarchState (1/4)).alpha ≤ 1 ∧
    ((0 ≤ (marchNoCap constRaySample 1 2 5 (initMarchState (1/4))).alpha
        - (marchCapped constRaySample 1 2 (1/2) 5 0
            (initMarchState (1/4))).alpha ∧
      (marchNoCap constRaySample 1 2 5 (initMarchState (1/4))).alpha
        - (marchCapped constRaySample 1 2 (1/2) 5 0
            (initMarchState (1/4))).alpha
       ≤ 1 - 1/2) ∧
     (0 ≤ (marchNoCap constRaySample 1 2 5 (initMarchState (1/4))).r
        - (marchCapped constRaySample 1 2 (1/2) 5 0
            (initMarchState (1/4))).r ∧
      (marchNoCap constRaySample 1 2 5 (initMarchState (1/4))).r
        - (marchCapped constRaySample 1 2 (1/2) 5 0
            (initMarchState (1/4))).r
       ≤ 1 - 1/2) ∧
     (0 ≤ (marchNoCap constRaySample 1 2 5 (initMarchState (1/4))).g
        - (marchCapped constRaySample 1 2 (1/2) 5 0
            (initMarchState (1/4))).g ∧
      (marchNoCap constRaySample 1 2 5 (initMarchState (1/4))).g
        - (marchCapped constRaySample 1 2 (1/2) 5 0
            (initMarchState (1/4))).g
       ≤ 1 - 1/2) ∧
     (0 ≤ (marchNoCap constRaySample 1 2 5 (initMarchState (1/4))).b
        - (marchCapped constRaySample 1 2 (1/2) 5 0
            (initMarchState (1/4))).b ∧
      (marchNoCap constRaySample 1 2 5 (initMarchState (1/4))).b
        - (marchCapped constRaySample 1 2 (1/2) 5 0
            (initMarchState (1/4))).b
       ≤ 1 - 1/2)) := by
  have hs : SampleInUnit constRaySample := by
    intro t
    refine ⟨?_, ?_, ?_, ?_, ?_, ?_, ?_, ?_⟩ <;>
      norm_num [constRaySample, sampleOnRay, constTransfer]
  refine ⟨hs, by norm_num, by norm_num [initMarchState],
    by norm_num [initMarchState], ?_⟩
  exact c2_early_termination_bound constRaySample 1 2 (1/2) 5 0
    (initMarchState (1/4)) hs (by norm_num) (by norm_num [initMarchState])
    (by norm_num [initMarchState])

end Wenderer
